import Mathlib

/-!
Verification of the two-phase stack-unwinding exception-propagation engine
of `rustlib/panic_unwind/src/gcc.rs` (SGX SDK port of Rust's panic runtime).

Shallow embedding conventions:
* Machine pointers and `u64`/`usize` values are modelled as `Nat`
  (with explicit `% 2 ^ 64` where wraparound matters); `c_int` as `Int`.
* The native unwind runtime (`sgx_unwind`, the `uw` module) is external:
  its context object is modelled as an explicit record of the observable
  state the personality routine may write (two general-purpose registers
  and the instruction pointer), and `_Unwind_SetGR` / `_Unwind_SetIP`
  are state transformers on that record.
* `find_eh_action`'s outcome enters the personality routine as an explicit
  `Except Unit EHAction` argument, mirroring the single call site.
-/

namespace eh

/-- The per-frame action resolved from unwind metadata
(`crate::dwarf::eh::EHAction`).  `None`: frame has no interest;
`Cleanup lpad`: run cleanup code at landing pad `lpad`; `Catch lpad`:
frame is a handler with landing pad `lpad`; `Terminate`: malformed
metadata, fatal. -/
inductive EHAction where
  | None : EHAction
  | Cleanup : Nat → EHAction
  | Catch : Nat → EHAction
  | Terminate : EHAction
deriving DecidableEq, Repr

/-- Frame context handed to the metadata decoder
(`crate::dwarf::eh::EHContext`): adjusted instruction pointer and function
start address.  The two lazily-evaluated relocation-base accessors of the
source structure are modelled as already-forced values; the spec-modelled
decoder below stores absolute values and does not consult them. -/
structure EHContext where
  ip : Nat
  func_start : Nat
  get_text_start : Nat := 0
  get_data_start : Nat := 0
deriving DecidableEq, Repr

/-- Modelled from the spec: the Unwind Metadata Decoder
(`crate::dwarf::eh`, not present under `src/`).  The metadata blob for one
function is a sequence of machine words: a landing-pad base, a
type-information encoding descriptor, the call-site record count `n`, then
`n` records of four words each — range `start`, range `len`, landing-pad
offset (`0` = no landing pad), action-chain entry index (`0` = no action,
`j > 0` names entry `j` of the actions list that follows the records).  Per
the spec, every offset is bounds-checked against the blob length before it
is dereferenced; a failed check is a decode failure.  This function scans
the ordered call-site table for the record whose half-open range covers
`pc`, bounds-checking each record before reading it.  It returns the
found record's `(landing-pad offset, action index)`, or `some none` when
no record covers `pc`, or `none` on a bounds-check failure (truncated
table); the second component logs every blob index actually dereferenced. -/
def scanRecords (blob : List Nat) (pc : Nat) :
    Nat → Nat → Option (Option (Nat × Nat)) × List Nat
  | 0, _ => (some none, [])
  | k + 1, base =>
    if base + 4 ≤ blob.length then
      let s := blob.getD base 0
      let l := blob.getD (base + 1) 0
      let lp := blob.getD (base + 2) 0
      let a := blob.getD (base + 3) 0
      if s ≤ pc ∧ pc < s + l then
        (some (some (lp, a)), [base, base + 1, base + 2, base + 3])
      else
        let r := scanRecords blob pc k (base + 4)
        (r.1, base :: (base + 1) :: (base + 2) :: (base + 3) :: r.2)
    else (none, [])

/-- Modelled from the spec: the full decode of one function's metadata blob
at relative program counter `pc`, instrumented with the list of blob
indices dereferenced.  Per the spec: no covering record or no landing-pad
offset yields `None`; a landing pad with no action-chain entry yields
`Cleanup`; a populated action-chain entry is an immediate `Catch` (the
runtime's simplified typing model); any bounds-check failure — truncated
header, truncated call-site table, or an action-chain index past the end
of the blob — is a decode failure surfaced as `Terminate`, never an
out-of-bounds read. -/
def decodeR (blob : List Nat) (pc : Nat) : EHAction × List Nat :=
  if 3 ≤ blob.length then
    let lpad_base := blob.getD 0 0
    let n := blob.getD 2 0
    let s := scanRecords blob pc n 3
    match s.1 with
    | none => (EHAction.Terminate, 0 :: 1 :: 2 :: s.2)
    | some none => (EHAction.None, 0 :: 1 :: 2 :: s.2)
    | some (some (lp, a)) =>
      if lp = 0 then (EHAction.None, 0 :: 1 :: 2 :: s.2)
      else if a = 0 then (EHAction.Cleanup (lpad_base + lp), 0 :: 1 :: 2 :: s.2)
      else if 3 + 4 * n + (a - 1) < blob.length then
        (EHAction.Catch (lpad_base + lp), (3 + 4 * n + (a - 1)) :: 0 :: 1 :: 2 :: s.2)
      else (EHAction.Terminate, 0 :: 1 :: 2 :: s.2)
  else (EHAction.Terminate, [])

/-- Modelled from the spec: `eh::find_eh_action` — decode the blob at the
program counter relative to the function start recorded in the context. -/
def find_eh_action (lsda : List Nat) (context : EHContext) : EHAction :=
  (decodeR lsda (context.ip - context.func_start)).1

end eh

namespace Gcc

open eh

/-- `_Unwind_Reason_Code` status values exchanged with the native unwind
runtime (the subset the personality routine produces or tests). -/
inductive Unwind_Reason_Code where
  | URC_NO_REASON : Unwind_Reason_Code
  | URC_FOREIGN_EXCEPTION_CAUGHT : Unwind_Reason_Code
  | URC_FATAL_PHASE2_ERROR : Unwind_Reason_Code
  | URC_FATAL_PHASE1_ERROR : Unwind_Reason_Code
  | URC_NORMAL_STOP : Unwind_Reason_Code
  | URC_END_OF_STACK : Unwind_Reason_Code
  | URC_HANDLER_FOUND : Unwind_Reason_Code
  | URC_INSTALL_CONTEXT : Unwind_Reason_Code
  | URC_CONTINUE_UNWIND : Unwind_Reason_Code
deriving DecidableEq, Repr

/-- `_UA_SEARCH_PHASE` bit of the `_Unwind_Action` bitmask. -/
def UA_SEARCH_PHASE : Nat := 1

/-- `_UA_CLEANUP_PHASE` bit of the `_Unwind_Action` bitmask. -/
def UA_CLEANUP_PHASE : Nat := 2

/-- Observable state of the native `_Unwind_Context` that the personality
routine may mutate: the DWARF general-purpose registers (indexed by the
`c_int` register ids used in `_Unwind_SetGR`) and the frame's instruction
pointer. -/
structure Unwind_Context where
  gr : Int → Nat
  ip : Nat

/-- `uw::_Unwind_SetGR`: write general-purpose register `reg`. -/
def Unwind_SetGR (ctx : Unwind_Context) (reg : Int) (v : Nat) : Unwind_Context :=
  { ctx with gr := fun r => if r = reg then v else ctx.gr r }

/-- `uw::_Unwind_SetIP`: set the frame's instruction pointer. -/
def Unwind_SetIP (ctx : Unwind_Context) (addr : Nat) : Unwind_Context :=
  { ctx with ip := addr }

/-- `UNWIND_DATA_REG` for `x86_64`: DWARF register numbers of the
exception-pointer register (RAX) and the exception-selector register
(RDX). -/
def UNWIND_DATA_REG : Int × Int := (0, 1)

/-- Rust's 8-byte exception class identifier
(`rust_exception_class`): `M O Z \0 R U S T`. -/
def rust_exception_class : Nat := 0x4d4f5a0052555354

/-- The exception envelope (`struct Exception`): the native
`_Unwind_Exception` header (its `exception_class` tag; the cleanup hook and
the unwinder's private words carry no payload-visible state and are
elided) plus the owned panic payload `cause`. -/
structure Unwind_Exception where
  exception_class : Nat
deriving DecidableEq, Repr

/-- `struct Exception` of `gcc.rs`: header plus owned payload. -/
structure Exception (α : Type u) where
  uwe : Unwind_Exception
  cause : α

/-- The envelope allocated by `panic` (the raise operation) before it is
handed to `_Unwind_RaiseException`: class tag set to this runtime's own
identifier, payload moved in.  The native raise call itself is external. -/
def panic {α : Type u} (data : α) : Exception α :=
  { uwe := { exception_class := rust_exception_class }, cause := data }

/-- Observable outcome of one run of `cleanup`:
`result` is the returned payload (`none` when the foreign-exception fault
is raised and the function does not return normally);
`deletedViaNative` records a call to `uw::_Unwind_DeleteException`;
`foreignFault` records the `__rust_foreign_exception` fault;
`readPayload` records whether the envelope's `cause` field was read;
`reclaimedEnvelope` records the `Box::from_raw` reclamation. -/
structure CleanupRun (α : Type u) where
  result : Option α
  deletedViaNative : Bool
  foreignFault : Bool
  readPayload : Bool
  reclaimedEnvelope : Bool

/-- `cleanup` of `gcc.rs`: check the class tag against
`rust_exception_class`; a foreign tag is handed to the native runtime's
delete primitive and raises the foreign-exception fault without touching
the payload; a matching tag reclaims the envelope and returns the payload. -/
def cleanup {α : Type u} (exc : Exception α) : CleanupRun α :=
  if exc.uwe.exception_class ≠ rust_exception_class then
    { result := Option.none, deletedViaNative := true, foreignFault := true,
      readPayload := false, reclaimedEnvelope := false }
  else
    { result := Option.some exc.cause, deletedViaNative := false, foreignFault := false,
      readPayload := true, reclaimedEnvelope := true }

/-- `rust_eh_personality_impl` of `gcc.rs`.  Arguments follow the source
signature; the resolved frame action (`find_eh_action(context)`) is passed
explicitly as `eh_result`.  Returns the reason code together with the
(possibly updated) frame context. -/
def rust_eh_personality_impl (version : Int) (actions : Nat)
    (_exception_class : Nat) (exception_object : Nat)
    (context : Unwind_Context) (eh_result : Except Unit EHAction) :
    Unwind_Reason_Code × Unwind_Context :=
  if version ≠ 1 then
    (Unwind_Reason_Code.URC_FATAL_PHASE1_ERROR, context)
  else
    match eh_result with
    | Except.error _ => (Unwind_Reason_Code.URC_FATAL_PHASE1_ERROR, context)
    | Except.ok eh_action =>
      if actions &&& UA_SEARCH_PHASE ≠ 0 then
        match eh_action with
        | EHAction.None | EHAction.Cleanup _ =>
            (Unwind_Reason_Code.URC_CONTINUE_UNWIND, context)
        | EHAction.Catch _ => (Unwind_Reason_Code.URC_HANDLER_FOUND, context)
        | EHAction.Terminate => (Unwind_Reason_Code.URC_FATAL_PHASE1_ERROR, context)
      else
        match eh_action with
        | EHAction.None => (Unwind_Reason_Code.URC_CONTINUE_UNWIND, context)
        | EHAction.Cleanup lpad | EHAction.Catch lpad =>
            let c1 := Unwind_SetGR context UNWIND_DATA_REG.1 exception_object
            let c2 := Unwind_SetGR c1 UNWIND_DATA_REG.2 0
            let c3 := Unwind_SetIP c2 lpad
            (Unwind_Reason_Code.URC_INSTALL_CONTEXT, c3)
        | EHAction.Terminate => (Unwind_Reason_Code.URC_FATAL_PHASE2_ERROR, context)

/-- `usize`/pointer arithmetic modulus (64-bit target). -/
def USIZE_MOD : Nat := 2 ^ 64

/-- `find_eh_action` of `gcc.rs`: build the `EHContext` from what the
native runtime reports for the frame — the language-specific data area
`lsda`, the instruction pointer `ip` with its `ip_before_instr` flag from
`_Unwind_GetIPInfo`, and the function start from `_Unwind_GetRegionStart`.
When the flag is zero the instruction pointer is a return address pointing
one byte past the call, so it is decremented (with `usize` wraparound)
before lookup. -/
def find_eh_action (lsda : List Nat) (ip : Nat) (ip_before_instr : Int)
    (func_start : Nat) : Except Unit EHAction :=
  let eh_context : EHContext :=
    { ip := if ip_before_instr ≠ 0 then ip else (ip + (USIZE_MOD - 1)) % USIZE_MOD,
      func_start := func_start }
  Except.ok (eh.find_eh_action lsda eh_context)

/-- A concrete frame context used by closed witness statements. -/
def ctx0 : Unwind_Context := { gr := fun _ => 0, ip := 0 }

/-- A concrete foreign-tagged envelope used by closed witness statements. -/
def exc0 : Exception Nat := { uwe := { exception_class := 0 }, cause := 42 }

end Gcc

namespace Gcc

open eh

/-- Claim C1: with protocol version 1 and a successfully resolved
`EHAction`, the dispatcher follows the phase table — search phase: `None`
and `Cleanup` yield continue-unwinding, `Catch` yields handler-found,
`Terminate` yields fatal-phase-1-error; cleanup phase: `None` yields
continue-unwinding, `Cleanup` and `Catch` yield install-context,
`Terminate` yields fatal-phase-2-error. -/
theorem dispatcher_phase_table (actions ec exc lpad : Nat)
    (ctx : Unwind_Context) :
    (actions &&& UA_SEARCH_PHASE ≠ 0 →
      (rust_eh_personality_impl 1 actions ec exc ctx (Except.ok EHAction.None)).1 =
        Unwind_Reason_Code.URC_CONTINUE_UNWIND ∧
      (rust_eh_personality_impl 1 actions ec exc ctx
          (Except.ok (EHAction.Cleanup lpad))).1 =
        Unwind_Reason_Code.URC_CONTINUE_UNWIND ∧
      (rust_eh_personality_impl 1 actions ec exc ctx
          (Except.ok (EHAction.Catch lpad))).1 =
        Unwind_Reason_Code.URC_HANDLER_FOUND ∧
      (rust_eh_personality_impl 1 actions ec exc ctx
          (Except.ok EHAction.Terminate)).1 =
        Unwind_Reason_Code.URC_FATAL_PHASE1_ERROR) ∧
    (actions &&& UA_SEARCH_PHASE = 0 →
      (rust_eh_personality_impl 1 actions ec exc ctx (Except.ok EHAction.None)).1 =
        Unwind_Reason_Code.URC_CONTINUE_UNWIND ∧
      (rust_eh_personality_impl 1 actions ec exc ctx
          (Except.ok (EHAction.Cleanup lpad))).1 =
        Unwind_Reason_Code.URC_INSTALL_CONTEXT ∧
      (rust_eh_personality_impl 1 actions ec exc ctx
          (Except.ok (EHAction.Catch lpad))).1 =
        Unwind_Reason_Code.URC_INSTALL_CONTEXT ∧
      (rust_eh_personality_impl 1 actions ec exc ctx
          (Except.ok EHAction.Terminate)).1 =
        Unwind_Reason_Code.URC_FATAL_PHASE2_ERROR) := by
  constructor <;> intro h <;>
    refine ⟨?_, ?_, ?_, ?_⟩ <;> simp [rust_eh_personality_impl, h]

/-- Closed instance of `dispatcher_phase_table` at action masks 1 (search
phase) and 2 (cleanup phase). -/
theorem dispatcher_phase_table_witness :
    ((1 : Nat) &&& UA_SEARCH_PHASE ≠ 0 ∧
      ((rust_eh_personality_impl 1 1 0 5 ctx0 (Except.ok EHAction.None)).1 =
        Unwind_Reason_Code.URC_CONTINUE_UNWIND ∧
      (rust_eh_personality_impl 1 1 0 5 ctx0 (Except.ok (EHAction.Cleanup 9))).1 =
        Unwind_Reason_Code.URC_CONTINUE_UNWIND ∧
      (rust_eh_personality_impl 1 1 0 5 ctx0 (Except.ok (EHAction.Catch 9))).1 =
        Unwind_Reason_Code.URC_HANDLER_FOUND ∧
      (rust_eh_personality_impl 1 1 0 5 ctx0 (Except.ok EHAction.Terminate)).1 =
        Unwind_Reason_Code.URC_FATAL_PHASE1_ERROR)) ∧
    ((2 : Nat) &&& UA_SEARCH_PHASE = 0 ∧
      ((rust_eh_personality_impl 1 2 0 5 ctx0 (Except.ok EHAction.None)).1 =
        Unwind_Reason_Code.URC_CONTINUE_UNWIND ∧
      (rust_eh_personality_impl 1 2 0 5 ctx0 (Except.ok (EHAction.Cleanup 9))).1 =
        Unwind_Reason_Code.URC_INSTALL_CONTEXT ∧
      (rust_eh_personality_impl 1 2 0 5 ctx0 (Except.ok (EHAction.Catch 9))).1 =
        Unwind_Reason_Code.URC_INSTALL_CONTEXT ∧
      (rust_eh_personality_impl 1 2 0 5 ctx0 (Except.ok EHAction.Terminate)).1 =
        Unwind_Reason_Code.URC_FATAL_PHASE2_ERROR)) :=
  ⟨⟨by decide, (dispatcher_phase_table 1 0 5 9 ctx0).1 (by decide)⟩,
   ⟨by decide, (dispatcher_phase_table 2 0 5 9 ctx0).2 (by decide)⟩⟩

/-- Claim C2, counterexample: in a cleanup-phase invocation (action mask
2) whose frame-action resolution fails, the dispatcher does not return
fatal-phase-2-error as the claim states — it returns
fatal-phase-1-error. -/
theorem decode_failure_phase2_counterexample :
    (rust_eh_personality_impl 1 UA_CLEANUP_PHASE 0 0 ctx0 (Except.error ())).1 ≠
      Unwind_Reason_Code.URC_FATAL_PHASE2_ERROR ∧
    (rust_eh_personality_impl 1 UA_CLEANUP_PHASE 0 0 ctx0 (Except.error ())).1 =
      Unwind_Reason_Code.URC_FATAL_PHASE1_ERROR := by
  constructor <;> decide

/-- Claim C2, amended: when resolving the frame's action fails, the
dispatcher aborts immediately with fatal-phase-1-error in both phases
(also during the cleanup phase), leaving the frame context untouched; it
never proceeds past the failure. -/
theorem decode_failure_always_phase1_fatal (actions ec exc : Nat)
    (ctx : Unwind_Context) :
    (rust_eh_personality_impl 1 actions ec exc ctx (Except.error ())).1 =
      Unwind_Reason_Code.URC_FATAL_PHASE1_ERROR ∧
    (rust_eh_personality_impl 1 actions ec exc ctx (Except.error ())).2 = ctx := by
  unfold rust_eh_personality_impl
  simp

/-- Claim C3: whenever the action flags include the search phase, the
dispatcher never returns install-context and leaves the frame context
(every register and the instruction pointer) unchanged, for every protocol
version and every resolver outcome. -/
theorem search_phase_pure (version : Int) (actions ec exc : Nat)
    (ctx : Unwind_Context) (r : Except Unit EHAction)
    (h : actions &&& UA_SEARCH_PHASE ≠ 0) :
    (rust_eh_personality_impl version actions ec exc ctx r).2 = ctx ∧
    (rust_eh_personality_impl version actions ec exc ctx r).1 ≠
      Unwind_Reason_Code.URC_INSTALL_CONTEXT := by
  unfold rust_eh_personality_impl
  by_cases hv : version = 1
  · cases r with
    | error e => simp [hv]
    | ok a => cases a <;> simp [hv, h]
  · simp [hv]

/-- Closed instance of `search_phase_pure`. -/
theorem search_phase_pure_witness :
    (1 : Nat) &&& UA_SEARCH_PHASE ≠ 0 ∧
    ((rust_eh_personality_impl 1 1 0 5 ctx0 (Except.ok EHAction.None)).2 = ctx0 ∧
      (rust_eh_personality_impl 1 1 0 5 ctx0 (Except.ok EHAction.None)).1 ≠
        Unwind_Reason_Code.URC_INSTALL_CONTEXT) :=
  ⟨by decide, search_phase_pure 1 1 0 5 ctx0 (Except.ok EHAction.None) (by decide)⟩

/-- Claim C7: a dispatcher invocation whose version argument differs from
1 returns a fatal error status at once, in either phase: the result is
fatal-phase-1-error, the frame context is untouched, and the result does
not depend on the frame-action resolution at all. -/
theorem version_mismatch_immediate_fatal (version : Int) (actions ec exc : Nat)
    (ctx : Unwind_Context) (r r' : Except Unit EHAction) (hv : version ≠ 1) :
    (rust_eh_personality_impl version actions ec exc ctx r).1 =
      Unwind_Reason_Code.URC_FATAL_PHASE1_ERROR ∧
    (rust_eh_personality_impl version actions ec exc ctx r).2 = ctx ∧
    rust_eh_personality_impl version actions ec exc ctx r =
      rust_eh_personality_impl version actions ec exc ctx r' := by
  unfold rust_eh_personality_impl
  simp [hv]

/-- Closed instance of `version_mismatch_immediate_fatal` at version 3,
cleanup-phase mask, with two distinct resolver outcomes. -/
theorem version_mismatch_immediate_fatal_witness :
    (3 : Int) ≠ 1 ∧
    ((rust_eh_personality_impl 3 2 0 0 ctx0 (Except.ok EHAction.Terminate)).1 =
      Unwind_Reason_Code.URC_FATAL_PHASE1_ERROR ∧
    (rust_eh_personality_impl 3 2 0 0 ctx0 (Except.ok EHAction.Terminate)).2 = ctx0 ∧
    rust_eh_personality_impl 3 2 0 0 ctx0 (Except.ok EHAction.Terminate) =
      rust_eh_personality_impl 3 2 0 0 ctx0 (Except.error ())) :=
  ⟨by decide,
   version_mismatch_immediate_fatal 3 2 0 0 ctx0 (Except.ok EHAction.Terminate)
     (Except.error ()) (by decide)⟩

/-- Claim C4: `cleanup` on an envelope whose class tag differs from this
runtime's own constant delegates disposal to the native delete primitive,
raises the foreign-exception fault, never reads the payload and returns no
payload; and the return-payload path is taken only when the tag equals
`rust_exception_class`. -/
theorem foreign_exception_isolated {α : Type u} (exc : Exception α)
    (h : exc.uwe.exception_class ≠ rust_exception_class) :
    ((cleanup exc).deletedViaNative = true ∧
      (cleanup exc).foreignFault = true ∧
      (cleanup exc).readPayload = false ∧
      (cleanup exc).result = none) ∧
    (∀ (e : Exception α) (p : α), (cleanup e).result = some p →
      e.uwe.exception_class = rust_exception_class) := by
  constructor
  · unfold cleanup
    simp [h]
  · intro e p hp
    by_cases he : e.uwe.exception_class = rust_exception_class
    · exact he
    · unfold cleanup at hp
      simp [he] at hp

/-- Closed instance of `foreign_exception_isolated` on a zero-tagged
envelope. -/
theorem foreign_exception_isolated_witness :
    Gcc.exc0.uwe.exception_class ≠ rust_exception_class ∧
    ((cleanup Gcc.exc0).deletedViaNative = true ∧
      (cleanup Gcc.exc0).foreignFault = true ∧
      (cleanup Gcc.exc0).readPayload = false ∧
      (cleanup Gcc.exc0).result = none) :=
  ⟨by decide, (foreign_exception_isolated Gcc.exc0 (by decide)).1⟩

/-- Claim C5: round trip — the envelope allocated by `panic` carries this
runtime's own class tag, so `cleanup` on it takes the matching-tag branch:
it returns exactly the payload that was raised, reclaims the envelope, and
neither deletes it through the native runtime nor raises the
foreign-exception fault. -/
theorem raise_cleanup_round_trip {α : Type u} (payload : α) :
    (panic payload).uwe.exception_class = rust_exception_class ∧
    (cleanup (panic payload)).result = some payload ∧
    (cleanup (panic payload)).reclaimedEnvelope = true ∧
    (cleanup (panic payload)).readPayload = true ∧
    (cleanup (panic payload)).deletedViaNative = false ∧
    (cleanup (panic payload)).foreignFault = false := by
  unfold panic cleanup
  simp

/-- Claim C8: a cleanup-phase invocation resolving to `Cleanup lpad` or
`Catch lpad` writes the exception object's address to the
exception-pointer register, writes the selector register, sets the frame's
instruction pointer to `lpad`, and returns install-context. -/
theorem cleanup_phase_install (actions ec exc lpad : Nat)
    (ctx : Unwind_Context) (h : actions &&& UA_SEARCH_PHASE = 0) :
    ((rust_eh_personality_impl 1 actions ec exc ctx
        (Except.ok (EHAction.Cleanup lpad))).1 =
      Unwind_Reason_Code.URC_INSTALL_CONTEXT ∧
    (rust_eh_personality_impl 1 actions ec exc ctx
        (Except.ok (EHAction.Cleanup lpad))).2.gr UNWIND_DATA_REG.1 = exc ∧
    (rust_eh_personality_impl 1 actions ec exc ctx
        (Except.ok (EHAction.Cleanup lpad))).2.gr UNWIND_DATA_REG.2 = 0 ∧
    (rust_eh_personality_impl 1 actions ec exc ctx
        (Except.ok (EHAction.Cleanup lpad))).2.ip = lpad) ∧
    ((rust_eh_personality_impl 1 actions ec exc ctx
        (Except.ok (EHAction.Catch lpad))).1 =
      Unwind_Reason_Code.URC_INSTALL_CONTEXT ∧
    (rust_eh_personality_impl 1 actions ec exc ctx
        (Except.ok (EHAction.Catch lpad))).2.gr UNWIND_DATA_REG.1 = exc ∧
    (rust_eh_personality_impl 1 actions ec exc ctx
        (Except.ok (EHAction.Catch lpad))).2.gr UNWIND_DATA_REG.2 = 0 ∧
    (rust_eh_personality_impl 1 actions ec exc ctx
        (Except.ok (EHAction.Catch lpad))).2.ip = lpad) := by
  unfold rust_eh_personality_impl Unwind_SetGR Unwind_SetIP UNWIND_DATA_REG
  simp [h]

/-- Closed instance of `cleanup_phase_install` at action mask 2. -/
theorem cleanup_phase_install_witness :
    (2 : Nat) &&& UA_SEARCH_PHASE = 0 ∧
    ((rust_eh_personality_impl 1 2 0 5 ctx0 (Except.ok (EHAction.Cleanup 9))).1 =
      Unwind_Reason_Code.URC_INSTALL_CONTEXT ∧
    (rust_eh_personality_impl 1 2 0 5 ctx0
        (Except.ok (EHAction.Cleanup 9))).2.gr UNWIND_DATA_REG.1 = 5 ∧
    (rust_eh_personality_impl 1 2 0 5 ctx0
        (Except.ok (EHAction.Cleanup 9))).2.gr UNWIND_DATA_REG.2 = 0 ∧
    (rust_eh_personality_impl 1 2 0 5 ctx0
        (Except.ok (EHAction.Cleanup 9))).2.ip = 9) :=
  ⟨by decide, ((cleanup_phase_install 2 0 5 9 ctx0 (by decide)).1)⟩

/-- Claim C10: in every cleanup-phase install, for the `Cleanup` as well
as the `Catch` case, the selector register is written with the constant
zero. -/
theorem selector_register_constant_zero (actions ec exc lpad : Nat)
    (ctx : Unwind_Context) (h : actions &&& UA_SEARCH_PHASE = 0) :
    (rust_eh_personality_impl 1 actions ec exc ctx
        (Except.ok (EHAction.Cleanup lpad))).2.gr UNWIND_DATA_REG.2 = 0 ∧
    (rust_eh_personality_impl 1 actions ec exc ctx
        (Except.ok (EHAction.Catch lpad))).2.gr UNWIND_DATA_REG.2 = 0 := by
  unfold rust_eh_personality_impl Unwind_SetGR Unwind_SetIP UNWIND_DATA_REG
  simp [h]

/-- Closed instance of `selector_register_constant_zero`. -/
theorem selector_register_constant_zero_witness :
    (2 : Nat) &&& UA_SEARCH_PHASE = 0 ∧
    ((rust_eh_personality_impl 1 2 0 5 ctx0
        (Except.ok (EHAction.Cleanup 9))).2.gr UNWIND_DATA_REG.2 = 0 ∧
    (rust_eh_personality_impl 1 2 0 5 ctx0
        (Except.ok (EHAction.Catch 9))).2.gr UNWIND_DATA_REG.2 = 0) :=
  ⟨by decide, selector_register_constant_zero 2 0 5 9 ctx0 (by decide)⟩

/-- Claim C6: the instruction pointer handed to the decoder is the raw
instruction pointer unchanged when `_Unwind_GetIPInfo`'s flag is nonzero
(the pointer is at the call instruction), and the raw instruction pointer
decremented by one when the flag is zero (the pointer is the return
address, one byte past the call). -/
theorem ip_adjustment (lsda : List Nat) (ip : Nat) (ip_before_instr : Int)
    (func_start : Nat) (hip : ip < USIZE_MOD) :
    (ip_before_instr ≠ 0 →
      find_eh_action lsda ip ip_before_instr func_start =
        Except.ok (eh.find_eh_action lsda { ip := ip, func_start := func_start })) ∧
    (ip_before_instr = 0 → 0 < ip →
      find_eh_action lsda ip ip_before_instr func_start =
        Except.ok (eh.find_eh_action lsda
          { ip := ip - 1, func_start := func_start })) := by
  constructor
  · intro h
    unfold find_eh_action
    simp [h]
  · intro h h1
    unfold find_eh_action
    have hmod : (ip + (USIZE_MOD - 1)) % USIZE_MOD = ip - 1 := by
      unfold USIZE_MOD at hip ⊢
      omega
    simp [h, hmod]

/-- Closed instance of `ip_adjustment` at raw instruction pointer 5 with
both flag values. -/
theorem ip_adjustment_witness :
    (Gcc.find_eh_action [] 5 1 0 =
      Except.ok (eh.find_eh_action [] { ip := 5, func_start := 0 })) ∧
    (Gcc.find_eh_action [] 5 0 0 =
      Except.ok (eh.find_eh_action [] { ip := 4, func_start := 0 })) :=
  ⟨(ip_adjustment [] 5 1 0 (by decide)).1 (by decide),
   (ip_adjustment [] 5 0 0 (by decide)).2 (by decide) (by decide)⟩

end Gcc

namespace eh

/-- Every blob index dereferenced by the call-site scan lies inside the
blob: each record is bounds-checked against the blob length before any of
its four fields is read. -/
theorem scanRecords_log_lt (blob : List Nat) (pc : Nat) :
    ∀ (k base i : Nat), i ∈ (scanRecords blob pc k base).2 → i < blob.length := by
  intro k
  induction k with
  | zero =>
    intro base i hi
    simp [scanRecords] at hi
  | succ k ih =>
    intro base i hi
    simp only [scanRecords] at hi
    split at hi
    · split at hi
      · simp only [List.mem_cons, List.not_mem_nil, or_false] at hi
        rcases hi with rfl | rfl | rfl | rfl
        · omega
        · omega
        · omega
        · omega
      · simp only [List.mem_cons] at hi
        rcases hi with rfl | rfl | rfl | rfl | hmem
        · omega
        · omega
        · omega
        · omega
        · exact ih (base + 4) i hmem
    · simp at hi

/-- Claim C9: the decoder bounds-checks every offset against the blob's
declared length before dereferencing — every index it reads is within the
blob — and malformed metadata resolves to `Terminate`: a call-site record
whose landing-pad field lies past the blob end, a call-site table
truncated before its declared record count, and an action-chain index past
the blob end all decode to `Terminate` without any out-of-range read. -/
theorem decoder_bounds_checked :
    (∀ (blob : List Nat) (pc i : Nat), i ∈ (decodeR blob pc).2 → i < blob.length) ∧
    (decodeR [0, 0, 1, 10, 5] 12).1 = EHAction.Terminate ∧
    (decodeR [0, 0, 2, 10, 5, 7, 0] 100).1 = EHAction.Terminate ∧
    (decodeR [0, 0, 1, 10, 5, 7, 3] 12).1 = EHAction.Terminate := by
  refine ⟨?_, by decide, by decide, by decide⟩
  intro blob pc i hi
  simp only [decodeR] at hi
  split at hi
  · split at hi
    · simp only [List.mem_cons, List.not_mem_nil, or_false] at hi
      rcases hi with rfl | rfl | rfl | hmem
      · omega
      · omega
      · omega
      · exact scanRecords_log_lt blob pc _ 3 i hmem
    · simp only [List.mem_cons, List.not_mem_nil, or_false] at hi
      rcases hi with rfl | rfl | rfl | hmem
      · omega
      · omega
      · omega
      · exact scanRecords_log_lt blob pc _ 3 i hmem
    · split at hi
      · simp only [List.mem_cons, List.not_mem_nil, or_false] at hi
        rcases hi with rfl | rfl | rfl | hmem
        · omega
        · omega
        · omega
        · exact scanRecords_log_lt blob pc _ 3 i hmem
      · split at hi
        · simp only [List.mem_cons, List.not_mem_nil, or_false] at hi
          rcases hi with rfl | rfl | rfl | hmem
          · omega
          · omega
          · omega
          · exact scanRecords_log_lt blob pc _ 3 i hmem
        · split at hi
          · simp only [List.mem_cons, List.not_mem_nil, or_false] at hi
            rcases hi with rfl | rfl | rfl | rfl | hmem
            · omega
            · omega
            · omega
            · omega
            · exact scanRecords_log_lt blob pc _ 3 i hmem
          · simp only [List.mem_cons, List.not_mem_nil, or_false] at hi
            rcases hi with rfl | rfl | rfl | hmem
            · omega
            · omega
            · omega
            · exact scanRecords_log_lt blob pc _ 3 i hmem
  · simp at hi

/-- Closed instance of `decoder_bounds_checked`: on the
minimal empty-table blob the decoder dereferences index 2, which is inside
the three-word blob. -/
theorem decoder_bounds_checked_witness :
    2 ∈ (decodeR [0, 0, 0] 0).2 ∧ 2 < ([0, 0, 0] : List Nat).length :=
  ⟨by decide, decoder_bounds_checked.1 [0, 0, 0] 0 2 (by decide)⟩

end eh
